import Mathlib

/-!
Verification development for the Paper Slack canvas summarizer
(`src/index.js`, `src/app.js`, `src/paper-enterprise.js`).

The development shallowly embeds the message-batching and
canvas-synchronization core.  Stateful JavaScript is modelled by explicit
state passing: the three global stores of `index.js` (`channelData`,
`canvasData`, `bootstrappedChannels`) become the record `IndexState`, and
every `await`ed network call becomes an explicit outcome parameter drawn
from `Except ErrKind _` / `ApiOutcome _` so that each `try`/`catch`/
`finally` path of the source is a branch of a total Lean function.

Link/date extraction (regular-expression scanning) is out of scope per the
specification and is not part of any claim, so `SummaryData` keeps only the
summary text and message-count metadata.
-/

namespace Paper

abbrev ChannelId := String
abbrev CanvasId := String

/-- A captured chat message (the shape pushed by `addMessageToBatch`,
`src/index.js` lines 341-346). -/
structure Message where
  user : String
  text : String
  ts : String
  thread_ts : Option String := none
deriving Repr, DecidableEq

/-- A raw message as returned by the platform history call
(`conversations.history`), before filtering. -/
structure SlackMsg where
  user : String
  text : String
  ts : String
  thread_ts : Option String := none
  bot_id : Option String := none
  subtype : Option String := none
deriving Repr, DecidableEq

/-- The `.map(msg => ({user, text, timestamp, thread_ts}))` conversion. -/
def toMessage (m : SlackMsg) : Message :=
  { user := m.user, text := m.text, ts := m.ts, thread_ts := m.thread_ts }

/-- The `CONFIG` object of `src/index.js` lines 259-268. -/
structure Config where
  BATCH_TIME_WINDOW : Nat
  BATCH_MESSAGE_LIMIT : Nat
  MAX_MESSAGES_FOR_SUMMARY : Nat
  MAX_CONVERSATION_HISTORY : Nat
  AI_TOKEN_SAFE_LIMIT : Nat
  BOOTSTRAP_DAYS_LOOKBACK : Nat
  MIN_MESSAGES_FOR_BOOTSTRAP : Nat
deriving Repr, DecidableEq

def CONFIG : Config :=
  { BATCH_TIME_WINDOW := 2 * 60 * 1000
    BATCH_MESSAGE_LIMIT := 10
    MAX_MESSAGES_FOR_SUMMARY := 500
    MAX_CONVERSATION_HISTORY := 1000
    AI_TOKEN_SAFE_LIMIT := 400
    BOOTSTRAP_DAYS_LOOKBACK := 14
    MIN_MESSAGES_FOR_BOOTSTRAP := 10 }

/-- One entry of the `channelData` map (`initChannelData`,
`src/index.js` lines 326-334). -/
structure ChannelEntry where
  messages : List Message
  lastBatchTime : Nat
  pendingUpdate : Bool
deriving Repr, DecidableEq

/-- The three global in-memory stores of `src/index.js` lines 253-256:
`channelData`, `canvasData` and `bootstrappedChannels`. -/
structure IndexState where
  channelData : ChannelId → Option ChannelEntry
  canvasData : ChannelId → Option CanvasId
  bootstrappedChannels : ChannelId → Bool

/-- `channelData.set(c, d)` / `channelData.delete(c)`. -/
def setChannel (st : IndexState) (c : ChannelId) (d : Option ChannelEntry) : IndexState :=
  { st with channelData := fun x => if x = c then d else st.channelData x }

/-- `canvasData.set(c, i)` / `canvasData.delete(c)`. -/
def setCanvas (st : IndexState) (c : ChannelId) (i : Option CanvasId) : IndexState :=
  { st with canvasData := fun x => if x = c then i else st.canvasData x }

/-- `bootstrappedChannels.add(c)` / `bootstrappedChannels.delete(c)`. -/
def setBootstrapped (st : IndexState) (c : ChannelId) (b : Bool) : IndexState :=
  { st with bootstrappedChannels := fun x => if x = c then b else st.bootstrappedChannels x }

/-- The cleanup performed for an inaccessible channel
(`channelData.delete; canvasData.delete; bootstrappedChannels.delete`). -/
def purgeChannel (st : IndexState) (c : ChannelId) : IndexState :=
  setBootstrapped (setCanvas (setChannel st c none) c none) c false

/-- Whether the channel currently holds the busy flag
(`channelData.get(c).pendingUpdate`, absent entries count as not busy). -/
def entryBusy (st : IndexState) (c : ChannelId) : Bool :=
  match st.channelData c with
  | some d => d.pendingUpdate
  | none => false

/-- `initChannelData` (`src/index.js` lines 326-334); `now` stands for the
`Date.now()` read used for the initial `lastBatchTime`. -/
def initChannelData (st : IndexState) (c : ChannelId) (now : Nat) : IndexState :=
  match st.channelData c with
  | some _ => st
  | none => setChannel st c (some { messages := [], lastBatchTime := now, pendingUpdate := false })

/-- `addMessageToBatch` (`src/index.js` lines 337-352): lazy init, push,
then trim to the most recent `MAX_MESSAGES_FOR_SUMMARY` messages
(`messages.slice(-MAX_MESSAGES_FOR_SUMMARY)`). -/
def addMessageToBatch (st : IndexState) (c : ChannelId) (m : Message) (now : Nat) : IndexState :=
  let st1 := initChannelData st c now
  match st1.channelData c with
  | none => st1
  | some d =>
    let msgs := d.messages ++ [m]
    let msgs := if msgs.length > CONFIG.MAX_MESSAGES_FOR_SUMMARY then
        msgs.drop (msgs.length - CONFIG.MAX_MESSAGES_FOR_SUMMARY)
      else msgs
    setChannel st1 c (some { d with messages := msgs })

/-- `shouldProcessBatch` (`src/index.js` lines 355-366). -/
def shouldProcessBatch (now : Nat) (st : IndexState) (c : ChannelId) : Bool :=
  match st.channelData c with
  | none => false
  | some d =>
    let timeSinceLastBatch := now - d.lastBatchTime
    let messageCount := d.messages.length
    (decide (timeSinceLastBatch ≥ CONFIG.BATCH_TIME_WINDOW) ||
     decide (messageCount ≥ CONFIG.BATCH_MESSAGE_LIMIT)) && !d.pendingUpdate

/-- Modelled from the spec: the Batch Scheduler decision rule of §4.2,
"`messageCount >= BATCH_MESSAGE_LIMIT (e.g., 10) OR elapsedSinceLastFlush >=
BATCH_TIME_WINDOW (e.g., 2 minutes)`, AND the channel is not currently
busy", stated for comparison with `shouldProcessBatch`. -/
def specShouldFlush (messageCount elapsed : Nat) (busy : Bool) : Bool :=
  (decide (messageCount ≥ 10) || decide (elapsed ≥ 2 * 60 * 1000)) && !busy

/-- The batching decision of the `app.message` handler
(`src/index.js` lines 1318-1325): append the message, then schedule a
`processBatch` cycle exactly when `shouldProcessBatch` says so. -/
def messageTriggerFires (st : IndexState) (c : ChannelId) (m : Message) (now : Nat) : Bool :=
  shouldProcessBatch now (addMessageToBatch st c m now) c

/-! ### Summarization gateway (`generateSummary`, `generateCanvasTitle`) -/

/-- The error kinds distinguished by the source's `catch` blocks
(`error.data?.error` checks): `channel_not_found`, `canvas_not_found`,
`missing_scope`, and everything else. -/
inductive ErrKind
  | channelNotFound
  | canvasNotFound
  | missingScope
  | other
deriving Repr, DecidableEq

/-- Outcome of a Slack Web API call whose result is also checked through
`response.ok` by the source: success, a non-throwing `ok: false` response,
or a thrown platform error. -/
inductive ApiOutcome (α : Type)
  | ok (a : α)
  | okFalse
  | threw (e : ErrKind)
deriving Repr, DecidableEq

/-- The summary object produced by `generateSummary`
(`src/index.js` lines 477-499), without the regex-extracted links/dates
(out of scope per the specification). -/
structure SummaryData where
  summary : String
  totalCount : Nat
  processedCount : Nat
  isFiltered : Bool
deriving Repr, DecidableEq

/-- `selectMessagesForSummary` (`src/index.js` lines 386-415): keep the
first 50 and last 300 messages and an every-nth sample of the middle when
the buffer exceeds `AI_TOKEN_SAFE_LIMIT`. -/
def selectMessagesForSummary (messages : List Message) : List Message :=
  if messages.length ≤ CONFIG.AI_TOKEN_SAFE_LIMIT then messages
  else
    let startMessages := messages.take 50
    let endMessages := messages.drop (messages.length - 300)
    if messages.length > 350 then
      let middleSection := (messages.drop 50).take (messages.length - 300 - 50)
      let sampleRate := (middleSection.length + 49) / 50
      let middleSample :=
        ((middleSection.enum.filter (fun p => p.1 % sampleRate = 0)).map Prod.snd).take 50
      startMessages ++ middleSample ++ endMessages
    else startMessages ++ endMessages

/-- The placeholder summary returned by `generateSummary`'s `catch` block
(`src/index.js` line 490). -/
def errorSummaryText : String := "❌ Error generating summary. Please try again later."

/-- `generateSummary` (`src/index.js` lines 418-500).  `gateway` is the
outcome of the `openai.chat.completions.create` call; the whole body is
inside one `try`, whose `catch` returns the placeholder object. -/
def generateSummary (messages : List Message) (gateway : Except ErrKind String) : SummaryData :=
  let selected := selectMessagesForSummary messages
  let isFiltered := decide (selected.length < messages.length)
  match gateway with
  | .ok body =>
      { summary := body
        totalCount := messages.length
        processedCount := selected.length
        isFiltered := isFiltered }
  | .error _ =>
      { summary := errorSummaryText
        totalCount := messages.length
        processedCount := 0
        isFiltered := false }

/-- The default title returned by `generateCanvasTitle`'s `catch` block
(`src/index.js` line 599). -/
def defaultCanvasTitle : String := "Conversation Summary"

/-- The `.replace(/^["']|["']$/g, '')` of `src/index.js` line 595: strip a
single leading and a single trailing quote character. -/
def stripEdgeQuotes (s : String) : String :=
  let s1 := if s.startsWith "\"" || s.startsWith "\x27" then s.drop 1 else s
  if s1.endsWith "\"" || s1.endsWith "\x27" then s1.dropRight 1 else s1

/-- `generateCanvasTitle` (`src/index.js` lines 577-601). -/
def generateCanvasTitle (gateway : Except ErrKind String) : String :=
  match gateway with
  | .ok t => stripEdgeQuotes t.trim
  | .error _ => defaultCanvasTitle

/-! ### Canvas synchronizer, multi-workspace path (`updateCanvasWithClient`) -/

/-- The network outcomes one `updateCanvasWithClient` run can observe:
the `conversations.info` lookup, the `conversations.canvases.create` call
and the `canvases.edit` call. -/
structure CanvasCallEnv where
  lookupRes : Except ErrKind (Option CanvasId)
  createRes : ApiOutcome CanvasId
  editRes : ApiOutcome Unit

/-- Result of one synchronizer run: the new stores, whether a
create-document call was issued, and the chat messages posted to the
channel (each entry is the posted text). -/
structure CanvasCallResult where
  st : IndexState
  createCalled : Bool
  posted : List String

/-- The outer `catch` of `updateCanvasWithClient`
(`src/index.js` lines 850-863): `canvas_not_found` clears only the cached
canvas id, `channel_not_found` purges all three stores, anything else only
logs. -/
def applyCanvasCatch (st : IndexState) (c : ChannelId) (e : ErrKind) : IndexState :=
  match e with
  | .canvasNotFound => setCanvas st c none
  | .channelNotFound => purgeChannel st c
  | _ => st

/-- The `canvases.edit` branch of `updateCanvasWithClient`
(`src/index.js` lines 827-848): success and `ok: false` leave the stores
untouched; a thrown error goes to the outer catch. -/
def editExistingWithClient (st : IndexState) (c : ChannelId) (env : CanvasCallEnv) :
    CanvasCallResult :=
  match env.editRes with
  | .ok _ => { st := st, createCalled := false, posted := [] }
  | .okFalse => { st := st, createCalled := false, posted := [] }
  | .threw e => { st := applyCanvasCatch st c e, createCalled := false, posted := [] }

/-- `updateCanvasWithClient` (`src/index.js` lines 772-864): consult the
local `canvasData` cache, then `conversations.info`, then create or edit.
No chat message is ever posted on this path. -/
def updateCanvasWithClient (st : IndexState) (c : ChannelId) (_sd : SummaryData)
    (env : CanvasCallEnv) : CanvasCallResult :=
  match st.canvasData c with
  | some _ => editExistingWithClient st c env
  | none =>
    match env.lookupRes with
    | .error .channelNotFound =>
        { st := purgeChannel st c, createCalled := false, posted := [] }
    | .error _ =>
        -- other lookup errors are logged and the run proceeds with no id
        match env.createRes with
        | .ok newId => { st := setCanvas st c (some newId), createCalled := true, posted := [] }
        | .okFalse => { st := st, createCalled := true, posted := [] }
        | .threw e => { st := applyCanvasCatch st c e, createCalled := true, posted := [] }
    | .ok (some found) =>
        editExistingWithClient (setCanvas st c (some found)) c env
    | .ok none =>
        match env.createRes with
        | .ok newId => { st := setCanvas st c (some newId), createCalled := true, posted := [] }
        | .okFalse => { st := st, createCalled := true, posted := [] }
        | .threw e => { st := applyCanvasCatch st c e, createCalled := true, posted := [] }

/-! ### Canvas synchronizer, single-workspace path (`updateCanvas`) -/

/-- `getExistingCanvasId` (`src/index.js` lines 549-574).  Returns the new
state, the found canvas id, and whether the `CHANNEL_INACCESSIBLE`
sentinel was returned (the `channel_not_found` catch purges the stores);
other lookup errors are caught and yield `null`. -/
def getExistingCanvasId (st : IndexState) (c : ChannelId)
    (res : Except ErrKind (Option CanvasId)) : IndexState × Option CanvasId × Bool :=
  match res with
  | .ok found => (st, found, false)
  | .error .channelNotFound => (purgeChannel st c, none, true)
  | .error _ => (st, none, false)

/-- The network outcomes one single-workspace `updateCanvas` run can
observe: the `getExistingCanvasId` lookup, the create call, the
creation-announcement `chat.postMessage`, the `canvases.edit` call, and
the fallback `chat.postMessage` in the outer catch. -/
structure SingleEnv where
  lookupRes : Except ErrKind (Option CanvasId)
  createRes : Except ErrKind CanvasId
  announceRes : Except ErrKind Unit
  editRes : Except ErrKind Unit
  fallbackRes : Except ErrKind Unit

/-- The outer `catch` of the single-workspace `updateCanvas`
(`src/index.js` lines 1001-1074): `channel_not_found` purges and returns;
every other error falls through to posting the summary as a plain chat
message, whose own `channel_not_found` failure purges and whose other
failures only log. -/
def updateCanvasCatchSingle (st : IndexState) (c : ChannelId) (sd : SummaryData)
    (e : ErrKind) (fallbackRes : Except ErrKind Unit) (created : Bool) : CanvasCallResult :=
  match e with
  | .channelNotFound => { st := purgeChannel st c, createCalled := created, posted := [] }
  | _ =>
    match fallbackRes with
    | .ok _ => { st := st, createCalled := created, posted := [sd.summary] }
    | .error .channelNotFound =>
        { st := purgeChannel st c, createCalled := created, posted := [] }
    | .error _ => { st := st, createCalled := created, posted := [] }

/-- The `canvases.edit` branch of the single-workspace `updateCanvas`
(`src/index.js` lines 964-999); the separate title-update call is wrapped
in its own try/catch and is non-fatal, so it has no modelled effect. -/
def editExistingSingle (st : IndexState) (c : ChannelId) (sd : SummaryData)
    (env : SingleEnv) (created : Bool) : CanvasCallResult :=
  match env.editRes with
  | .ok _ => { st := st, createCalled := created, posted := [] }
  | .error e => updateCanvasCatchSingle st c sd e env.fallbackRes created

/-- The single-workspace (token mode) branch of `updateCanvas`
(`src/index.js` lines 897-999 plus the shared catch at 1001-1074):
cache check, `getExistingCanvasId`, then create (with an announcement
post) or edit. -/
def updateCanvasSingle (st : IndexState) (c : ChannelId) (sd : SummaryData)
    (title : String) (env : SingleEnv) : CanvasCallResult :=
  match st.canvasData c with
  | some _ => editExistingSingle st c sd env false
  | none =>
    match getExistingCanvasId st c env.lookupRes with
    | (st1, _, true) => { st := st1, createCalled := false, posted := [] }
    | (st1, some found, false) =>
        editExistingSingle (setCanvas st1 c (some found)) c sd env false
    | (st1, none, false) =>
        match env.createRes with
        | .error e => updateCanvasCatchSingle st1 c sd e env.fallbackRes true
        | .ok newId =>
            let st2 := setCanvas st1 c (some newId)
            match env.announceRes with
            | .ok _ =>
                { st := st2, createCalled := true, posted := ["📄 " ++ title] }
            | .error e => updateCanvasCatchSingle st2 c sd e env.fallbackRes true

/-- The OAuth-mode preamble of `updateCanvas` (`src/index.js` lines
869-896): resolve the team id via `conversations.info` and fetch the
installation; either step failing returns with no platform write. -/
structure OAuthResolve where
  channelInfoRes : Except ErrKind String
  installationFound : Bool

/-- `updateCanvas` (`src/index.js` lines 867-1075): in OAuth mode resolve
a workspace client and delegate to `updateCanvasWithClient`; in token mode
run the single-workspace logic. -/
def updateCanvas (st : IndexState) (c : ChannelId) (sd : SummaryData) (title : String)
    (oauthMode : Bool) (res : OAuthResolve) (envW : CanvasCallEnv) (envS : SingleEnv) :
    CanvasCallResult :=
  if oauthMode then
    match res.channelInfoRes with
    | .error _ => { st := st, createCalled := false, posted := [] }
    | .ok _ =>
      if res.installationFound then updateCanvasWithClient st c sd envW
      else { st := st, createCalled := false, posted := [] }
  else updateCanvasSingle st c sd title envS

/-! ### `processBatch` (`src/index.js` lines 1213-1243)

`processBatch` suspends at the `generateSummary`/`updateCanvas` awaits, so
it is modelled in two phases: `processBatchStart` is the guard plus
`data.pendingUpdate = true`, and `processBatchFinish` applies the
`catch`/`finally` blocks once the awaited body has finished with outcome
`r` (messages appended meanwhile are part of the state handed to the
finish phase). -/

/-- The entry guard and busy-flag acquisition of `processBatch`
(lines 1214-1217); the returned Bool says whether a cycle started. -/
def processBatchStart (st : IndexState) (c : ChannelId) : IndexState × Bool :=
  match st.channelData c with
  | none => (st, false)
  | some d =>
    if d.messages.length = 0 then (st, false)
    else (setChannel st c (some { d with pendingUpdate := true }), true)

/-- The `finally` block of `processBatch` (lines 1240-1242):
`data.pendingUpdate = false` (a no-op when the entry was deleted by an
error handler during the cycle). -/
def clearBusy (st : IndexState) (c : ChannelId) : IndexState :=
  match st.channelData c with
  | some d => setChannel st c (some { d with pendingUpdate := false })
  | none => st

/-- The tail of `processBatch`: on success `lastBatchTime = Date.now()`;
the `catch` purges on `channel_not_found` and sets the bootstrapped flag
on `missing_scope`; the `finally` clears `pendingUpdate` on every path.
Note that no branch removes messages from the buffer. -/
def processBatchFinish (st : IndexState) (c : ChannelId) (now : Nat)
    (r : Except ErrKind Unit) : IndexState :=
  let st1 := match r with
    | .ok _ =>
        match st.channelData c with
        | some d => setChannel st c (some { d with lastBatchTime := now })
        | none => st
    | .error .channelNotFound => purgeChannel st c
    | .error .missingScope => setBootstrapped st c true
    | .error _ => st
  clearBusy st1 c

/-! ### Bootstrap importer -/

/-- The history filter of the bootstrap paths (`src/index.js` lines
708-716): drop bot messages, subtyped system messages and
empty/whitespace-only texts, then reverse into chronological order. -/
def filterBootstrapMessages (msgs : List SlackMsg) : List Message :=
  ((msgs.filter (fun m =>
      m.bot_id.isNone && m.subtype.isNone && !(m.text.trim == ""))).reverse).map toMessage

/-- Network/gateway outcomes of one `bootstrapChannelCanvasWithClient`
run: the `conversations.history` fetch, the summarization gateway, and the
canvas calls performed by the nested `updateCanvasWithClient`. -/
structure BootstrapEnv where
  historyRes : Except ErrKind (List SlackMsg)
  gateway : Except ErrKind String
  canvasEnv : CanvasCallEnv

/-- Result of a bootstrap run: the new stores and whether the history
fetch was performed. -/
structure BootstrapResult where
  st : IndexState
  historyFetched : Bool

/-- `bootstrapChannelCanvasWithClient` (`src/index.js` lines 665-769):
gated on `bootstrappedChannels`; every exit path — inaccessible channel,
missing scope, rethrown history error caught by the outer catch,
sufficient history, insufficient history, empty history — adds the
channel to `bootstrappedChannels`. -/
def bootstrapChannelCanvasWithClient (st : IndexState) (c : ChannelId) (now : Nat)
    (env : BootstrapEnv) : BootstrapResult :=
  if st.bootstrappedChannels c then { st := st, historyFetched := false }
  else
    match env.historyRes with
    | .error _ => { st := setBootstrapped st c true, historyFetched := true }
    | .ok msgs =>
      if msgs.length > 0 then
        let conversationMessages := filterBootstrapMessages msgs
        if conversationMessages.length ≥ CONFIG.MIN_MESSAGES_FOR_BOOTSTRAP then
          let sd := generateSummary conversationMessages env.gateway
          let ucr := updateCanvasWithClient st c sd env.canvasEnv
          { st := initChannelData (setBootstrapped ucr.st c true) c now
            historyFetched := true }
        else { st := setBootstrapped st c true, historyFetched := true }
      else { st := setBootstrapped st c true, historyFetched := true }

/-- Network/gateway outcomes of one `bootstrapChannelCanvas` run, which in
OAuth mode first resolves a workspace client and whose canvas step goes
through the `updateCanvas` dispatcher. -/
structure BootstrapEnv2 where
  oauthMode : Bool
  res : OAuthResolve
  historyRes : Except ErrKind (List SlackMsg)
  gateway : Except ErrKind String
  titleGw : Except ErrKind String
  envW : CanvasCallEnv
  envS : SingleEnv

/-- `bootstrapChannelCanvas` (`src/index.js` lines 1078-1210): same
shape as the with-client variant, with the OAuth-mode client resolution in
front (a failed `conversations.info` is caught by the outer catch, a
missing installation returns early; both add the bootstrapped flag) and
`updateCanvas` as the canvas step. -/
def bootstrapChannelCanvas (st : IndexState) (c : ChannelId) (now : Nat)
    (env : BootstrapEnv2) : BootstrapResult :=
  if st.bootstrappedChannels c then { st := st, historyFetched := false }
  else if env.oauthMode &&
      (match env.res.channelInfoRes with | .error _ => true | .ok _ => false) then
    { st := setBootstrapped st c true, historyFetched := false }
  else if env.oauthMode && !env.res.installationFound then
    { st := setBootstrapped st c true, historyFetched := false }
  else
    match env.historyRes with
    | .error _ => { st := setBootstrapped st c true, historyFetched := true }
    | .ok msgs =>
      if msgs.length > 0 then
        let conversationMessages := filterBootstrapMessages msgs
        if conversationMessages.length ≥ CONFIG.MIN_MESSAGES_FOR_BOOTSTRAP then
          let sd := generateSummary conversationMessages env.gateway
          let title := generateCanvasTitle env.titleGw
          let ucr := updateCanvas st c sd title env.oauthMode env.res env.envW env.envS
          { st := initChannelData (setBootstrapped ucr.st c true) c now
            historyFetched := true }
        else { st := setBootstrapped st c true, historyFetched := true }
      else { st := setBootstrapped st c true, historyFetched := true }

/-! ### `app_mention` handler (`src/index.js` lines 1329-1459) -/

/-- JavaScript `String.prototype.includes`: substring containment. -/
def strIncludes (s pat : String) : Bool := decide (List.IsInfix pat.toList s.toList)

/-- The history filter of the manual-summary path (`src/index.js` lines
1424-1432): drop bot and subtyped messages (no empty-text check here),
then reverse into chronological order. -/
def filterMentionMessages (msgs : List SlackMsg) : List Message :=
  ((msgs.filter (fun m => m.bot_id.isNone && m.subtype.isNone)).reverse).map toMessage

/-- Network/gateway outcomes of one `app_mention` run in token mode. -/
structure MentionEnv where
  historyRes : Except ErrKind (List SlackMsg)
  gateway : Except ErrKind String
  titleGw : Except ErrKind String
  canvasEnv : SingleEnv
  bootEnv : BootstrapEnv2
  now : Nat

/-- Result of an `app_mention` run: the new stores and whether the
`conversations.history` platform call was performed. -/
structure MentionResult where
  st : IndexState
  historyFetched : Bool

/-- The `app_mention` handler (`src/index.js` lines 1329-1459), token
mode.  On a "summary"/"update" command it bootstraps if needed, otherwise
fetches the channel history and, with at least 3 usable messages, runs
`generateSummary` and `updateCanvas`.  No branch consults
`pendingUpdate`; history errors are answered with a reply and the outer
catch swallows the rest. -/
def appMentionHandler (st : IndexState) (c : ChannelId) (text : String)
    (env : MentionEnv) : MentionResult :=
  if strIncludes text "summary" || strIncludes text "update" then
    if !(st.bootstrappedChannels c) then
      let b := bootstrapChannelCanvas st c env.now env.bootEnv
      { st := b.st, historyFetched := b.historyFetched }
    else
      match env.historyRes with
      | .error _ => { st := st, historyFetched := true }
      | .ok msgs =>
        if msgs.length > 0 then
          let conversationMessages := filterMentionMessages msgs
          if conversationMessages.length ≥ 3 then
            let sd := generateSummary conversationMessages env.gateway
            let title := generateCanvasTitle env.titleGw
            let r := updateCanvasSingle st c sd title env.canvasEnv
            { st := r.st, historyFetched := true }
          else { st := st, historyFetched := true }
        else { st := st, historyFetched := true }
  else { st := st, historyFetched := false }

/-! ### Periodic idle cleanup (`src/index.js` lines 1554-1565) -/

/-- The 30-minute cleanup interval body, expressed pointwise: every
channel whose entry has an empty buffer and `lastBatchTime` older than one
hour is deleted from `channelData`, `canvasData` and
`bootstrappedChannels`; all other channels are untouched (the per-key
condition depends only on that key's entry, so the loop order is
irrelevant). -/
def cleanupIdle (st : IndexState) (now : Nat) : IndexState :=
  let oneHourAgo := now - 60 * 60 * 1000
  let evict : ChannelId → Bool := fun c =>
    match st.channelData c with
    | some d => decide (d.lastBatchTime < oneHourAgo) && decide (d.messages.length = 0)
    | none => false
  { channelData := fun c => if evict c then none else st.channelData c
    canvasData := fun c => if evict c then none else st.canvasData c
    bootstrappedChannels := fun c => if evict c then false else st.bootstrappedChannels c }

/-! ### `src/app.js` — the clean multi-workspace variant -/

/-- One entry of `workspaceData.channels` in `src/app.js`
(lines 303-313). -/
structure AppChannelEntry where
  messages : List Message
  canvasId : Option CanvasId
  lastUpdate : Nat
deriving Repr, DecidableEq

/-- The buffer reset of `processMessages` in `src/app.js` line 385:
`channelData.messages = []` — the whole buffer is cleared, including
messages that arrived while the cycle was in flight. -/
def appProcessMessagesFinish (d : AppChannelEntry) : AppChannelEntry :=
  { d with messages := [] }

/-! ### `src/paper-enterprise.js` — the snapshot-consuming variant -/

/-- One entry of `workspaceData.channels` in `src/paper-enterprise.js`
(lines 307-319). -/
structure EntChannelEntry where
  messages : List Message
  canvasId : Option CanvasId
  lastUpdate : Nat
  processing : Bool
deriving Repr, DecidableEq

/-- How the awaited body of the enterprise `processMessages` ended:
normally, with the early `if (!client) return`, or with a thrown error
caught by the `catch`. -/
inductive EntBodyOutcome
  | completed
  | noClient
  | threw (e : ErrKind)
deriving Repr, DecidableEq

/-- The guard and snapshot phase of `processMessages` in
`src/paper-enterprise.js` (lines 435-463): skip when already processing
or below 3 messages, else set `processing` and copy the message list. -/
def entProcessStart (d : EntChannelEntry) : EntChannelEntry × Option (List Message) :=
  if d.processing then (d, none)
  else if d.messages.length < 3 then (d, none)
  else ({ d with processing := true }, some d.messages)

/-- The completion phase of the enterprise `processMessages`
(lines 468-484): on normal completion clear exactly the consumed snapshot
(`messages = []` when nothing arrived meanwhile, else
`messages.slice(snapshot.length)`); the `finally` clears `processing` on
every path. -/
def entProcessFinish (d : EntChannelEntry) (snapshot : List Message)
    (o : EntBodyOutcome) : EntChannelEntry :=
  let d1 := match o with
    | .completed =>
        if d.messages.length = snapshot.length then { d with messages := [] }
        else { d with messages := d.messages.drop snapshot.length }
    | _ => d
  { d1 with processing := false }

/-! ### Repeated synchronization cycles against platform state -/

/-- One triggered synchronization cycle's canvas phase, coupled to the
platform-side attached document: `conversations.info` reports the
platform's current document, the create call has the given outcome (a
successful create attaches the fresh id platform-side), and the edit call
succeeds (no document-stale error in the run).  Returns the new stores,
the new platform document, and whether a create call was issued. -/
def syncCycle (st : IndexState) (platform : Option CanvasId) (c : ChannelId)
    (sd : SummaryData) (createOutcome : ApiOutcome CanvasId) :
    IndexState × Option CanvasId × Bool :=
  let r := updateCanvasWithClient st c sd
    { lookupRes := .ok platform, createRes := createOutcome, editRes := .ok () }
  let platform2 :=
    if r.createCalled then
      match createOutcome with
      | .ok i => some i
      | _ => platform
    else platform
  (r.st, platform2, r.createCalled)

/-- A sequence of triggered cycles; returns the final stores, the final
platform document and the total number of create-document calls. -/
def runSync (st : IndexState) (platform : Option CanvasId) (c : ChannelId)
    (sd : SummaryData) : List (ApiOutcome CanvasId) → IndexState × Option CanvasId × Nat
  | [] => (st, platform, 0)
  | o :: rest =>
    let s1 := syncCycle st platform c sd o
    let s2 := runSync s1.1 s1.2.1 c sd rest
    (s2.1, s2.2.1, (if s1.2.2 then 1 else 0) + s2.2.2)

/-! ### Concrete fixtures for witnesses and counterexamples -/

def msgA : Message := { user := "U1", text := "hello", ts := "1" }

def msgB : Message := { user := "U2", text := "world", ts := "2" }

/-- The empty stores (process start). -/
def emptyState : IndexState :=
  { channelData := fun _ => none, canvasData := fun _ => none
    bootstrappedChannels := fun _ => false }

/-- Stores holding data for exactly one channel. -/
def singleChannelState (c : ChannelId) (d : Option ChannelEntry) (i : Option CanvasId)
    (b : Bool) : IndexState :=
  { channelData := fun x => if x = c then d else none
    canvasData := fun x => if x = c then i else none
    bootstrappedChannels := fun x => if x = c then b else false }

def sdEx : SummaryData :=
  { summary := "the summary body", totalCount := 3, processedCount := 3, isFiltered := false }

def okCanvasEnv : CanvasCallEnv :=
  { lookupRes := .ok none, createRes := .ok "D1", editRes := .ok () }

def okSingleEnv : SingleEnv :=
  { lookupRes := .ok none, createRes := .ok "D1", announceRes := .ok ()
    editRes := .ok (), fallbackRes := .ok () }

def oresOk : OAuthResolve := { channelInfoRes := .ok "T1", installationFound := true }

def bootEnv2Ex : BootstrapEnv2 :=
  { oauthMode := false, res := oresOk, historyRes := .ok [], gateway := .ok "sum"
    titleGw := .ok "title", envW := okCanvasEnv, envS := okSingleEnv }

/-- Three plain user messages as a raw history result (newest first, as
Slack returns them). -/
def historyThree : List SlackMsg :=
  [{ user := "U3", text := "three", ts := "3" },
   { user := "U2", text := "two", ts := "2" },
   { user := "U1", text := "one", ts := "1" }]

def mentionEnvEx : MentionEnv :=
  { historyRes := .ok historyThree, gateway := .ok "sum", titleGw := .ok "title"
    canvasEnv := okSingleEnv, bootEnv := bootEnv2Ex, now := 0 }

/-- A channel with one buffered message and a cycle in flight. -/
def stBusy : IndexState :=
  singleChannelState "C1" (some { messages := [msgA], lastBatchTime := 0, pendingUpdate := true })
    none true

/-- A channel with one buffered message and no cycle in flight. -/
def stC2 : IndexState :=
  singleChannelState "C2" (some { messages := [msgA], lastBatchTime := 0, pendingUpdate := false })
    none true

/-- A channel whose cached canvas id is the (stale) document `"D1"`. -/
def stD1 : IndexState :=
  singleChannelState "C6" (some { messages := [msgA], lastBatchTime := 0, pendingUpdate := true })
    (some "D1") true

/-- Single-workspace environment where the edit call reports the cached
document stale (`canvas_not_found`). -/
def staleEnvS : SingleEnv :=
  { lookupRes := .ok none, createRes := .ok "D2", announceRes := .ok ()
    editRes := .error .canvasNotFound, fallbackRes := .ok () }

/-- Environment where the create call is rejected with a permission-style
error. -/
def permEnvW : CanvasCallEnv :=
  { lookupRes := .ok none, createRes := .threw .other, editRes := .ok () }

def stC8 : IndexState :=
  singleChannelState "C8" (some { messages := [msgA], lastBatchTime := 0, pendingUpdate := true })
    none true

/-- Nine buffered messages, recent last flush, not busy. -/
def stNine : IndexState :=
  singleChannelState "C5"
    (some { messages := List.replicate 9 msgA, lastBatchTime := 0, pendingUpdate := false })
    none true

/-- Eight buffered messages, recent last flush, not busy. -/
def stEight : IndexState :=
  singleChannelState "C5"
    (some { messages := List.replicate 8 msgA, lastBatchTime := 0, pendingUpdate := false })
    none true

/-- A paper-enterprise channel entry with three buffered messages and no
cycle in flight. -/
def entEx : EntChannelEntry :=
  { messages := [msgA, msgA, msgA], canvasId := none, lastUpdate := 0, processing := false }

/-- Multi-workspace environment where the edit call throws
`canvas_not_found` (stale cached id). -/
def staleEnvW : CanvasCallEnv :=
  { lookupRes := .ok none, createRes := .okFalse, editRes := .threw .canvasNotFound }

/-- Multi-workspace environment where the platform has no document and the
create call succeeds with `"D2"`. -/
def freshEnvW : CanvasCallEnv :=
  { lookupRes := .ok none, createRes := .ok "D2", editRes := .ok () }

def bootEnvEx : BootstrapEnv :=
  { historyRes := .ok [], gateway := .ok "sum", canvasEnv := okCanvasEnv }

/-- An idle channel: empty buffer, last flush at time 0, a cached canvas
id and the bootstrapped flag set. -/
def stIdle : IndexState :=
  singleChannelState "C10"
    (some { messages := [], lastBatchTime := 0, pendingUpdate := false }) (some "D9") true

/-! ## Helper lemmas -/

theorem setChannel_channelData (st : IndexState) (c : ChannelId) (d : Option ChannelEntry) :
    (setChannel st c d).channelData c = d := by
  simp [setChannel]

theorem setCanvas_canvasData (st : IndexState) (c : ChannelId) (i : Option CanvasId) :
    (setCanvas st c i).canvasData c = i := by
  simp [setCanvas]

theorem entryBusy_setChannel (st : IndexState) (c : ChannelId) (d : ChannelEntry) :
    entryBusy (setChannel st c (some d)) c = d.pendingUpdate := by
  simp [entryBusy, setChannel]

theorem entryBusy_clearBusy (st : IndexState) (c : ChannelId) :
    entryBusy (clearBusy st c) c = false := by
  unfold clearBusy
  split
  · next d h => rw [entryBusy_setChannel]
  · next h => simp [entryBusy, h]

/-- The `finally` of `processBatch` clears the busy flag on every outcome. -/
theorem entryBusy_processBatchFinish (st : IndexState) (c : ChannelId) (now : Nat)
    (r : Except ErrKind Unit) : entryBusy (processBatchFinish st c now r) c = false := by
  unfold processBatchFinish
  exact entryBusy_clearBusy _ c

/-- Appending a message to a busy channel keeps the busy flag set. -/
theorem entryBusy_addMessageToBatch (st : IndexState) (c : ChannelId) (m : Message)
    (now : Nat) (h : entryBusy st c = true) :
    entryBusy (addMessageToBatch st c m now) c = true := by
  unfold entryBusy at h
  cases hd : st.channelData c with
  | none => simp [hd] at h
  | some d =>
    rw [hd] at h
    simp only [addMessageToBatch, initChannelData, hd]
    rw [entryBusy_setChannel]
    exact h

/-! ## Claim C3 — the busy flag brackets every cycle and is always released -/

/-- C3: for every synchronization cycle, `processBatch` sets the busy flag
when the cycle starts, message appends during the cycle keep it set, and
the `finally` block clears it on every completion path (success,
`channel_not_found`, `missing_scope`, and any other error), so no channel
stays permanently busy. -/
theorem busy_flag_whole_cycle_always_released :
    (∀ (st : IndexState) (c : ChannelId) (now : Nat) (r : Except ErrKind Unit),
      entryBusy (processBatchFinish st c now r) c = false) ∧
    (∀ (st : IndexState) (c : ChannelId),
      (processBatchStart st c).2 = true → entryBusy (processBatchStart st c).1 c = true) ∧
    (∀ (st : IndexState) (c : ChannelId) (m : Message) (now : Nat),
      entryBusy st c = true → entryBusy (addMessageToBatch st c m now) c = true) := by
  refine ⟨entryBusy_processBatchFinish, ?_, entryBusy_addMessageToBatch⟩
  intro st c h
  unfold processBatchStart at h ⊢
  cases hd : st.channelData c with
  | none => simp [hd] at h
  | some d =>
    simp only [hd] at h ⊢
    by_cases hl : d.messages.length = 0
    · simp [hl] at h
    · simp only [hl, if_false, if_neg hl]
      rw [entryBusy_setChannel]

/-- C3 witness: a concrete busy cycle on channel `"C2"`. -/
theorem busy_flag_whole_cycle_always_released_witness :
    entryBusy (processBatchFinish stC2 "C2" 60 (Except.error ErrKind.other)) "C2" = false ∧
    entryBusy (processBatchStart stC2 "C2").1 "C2" = true ∧
    entryBusy (addMessageToBatch stBusy "C1" msgB 50) "C1" = true := by
  refine ⟨busy_flag_whole_cycle_always_released.1 stC2 "C2" 60 (Except.error ErrKind.other),
    busy_flag_whole_cycle_always_released.2.1 stC2 "C2" (by decide),
    busy_flag_whole_cycle_always_released.2.2 stBusy "C1" msgB 50 (by decide)⟩

/-! ## Claim C9 — gateway failures degrade to placeholders, never throw -/

/-- C9: if the summarization gateway call errors, `generateSummary`
returns the visible placeholder summary (it never throws); if the
title-generation call errors, `generateCanvasTitle` returns the default
title `"Conversation Summary"`; and the cycle still completes — the busy
lock is released whatever the body's outcome. -/
theorem gateway_failure_yields_placeholders :
    (∀ (messages : List Message) (e : ErrKind),
      (generateSummary messages (Except.error e)).summary =
        "❌ Error generating summary. Please try again later.") ∧
    (∀ (e : ErrKind), generateCanvasTitle (Except.error e) = "Conversation Summary") ∧
    (∀ (st : IndexState) (c : ChannelId) (now : Nat) (r : Except ErrKind Unit),
      entryBusy (processBatchFinish st c now r) c = false) := by
  exact ⟨fun _ _ => rfl, fun _ => rfl, entryBusy_processBatchFinish⟩

/-! ## Claim C5 — the flush decision rule -/

/-- C5: `shouldProcessBatch` returns true exactly when the spec's rule
`(messageCount >= 10 OR elapsed >= 2 minutes) AND not busy` does (and
false for channels with no entry); concretely, with a recent last flush
and an idle channel, the append that brings the buffer to 10 messages
fires the trigger, the append that brings it to 9 does not, and once the
fired cycle is in flight the next append fires nothing further. -/
theorem shouldProcessBatch_matches_spec :
    (∀ (now : Nat) (st : IndexState) (c : ChannelId) (d : ChannelEntry),
      st.channelData c = some d →
      shouldProcessBatch now st c =
        specShouldFlush d.messages.length (now - d.lastBatchTime) d.pendingUpdate) ∧
    (∀ (now : Nat) (st : IndexState) (c : ChannelId),
      st.channelData c = none → shouldProcessBatch now st c = false) ∧
    messageTriggerFires stNine "C5" msgB 60 = true ∧
    messageTriggerFires stEight "C5" msgB 60 = false ∧
    messageTriggerFires (processBatchStart (addMessageToBatch stNine "C5" msgB 60) "C5").1
      "C5" msgB 61 = false := by
  refine ⟨?_, ?_, by decide, by decide, by decide⟩
  · intro now st c d h
    simp only [shouldProcessBatch, specShouldFlush, h, CONFIG]
    rw [Bool.or_comm]
  · intro now st c h
    simp [shouldProcessBatch, h]

/-- C5 witness: the equivalence evaluated on the concrete nine-message
channel. -/
theorem shouldProcessBatch_matches_spec_witness :
    shouldProcessBatch 60 stNine "C5" =
      specShouldFlush (List.replicate 9 msgA).length (60 - 0) false ∧
    shouldProcessBatch 60 emptyState "C5" = false := by
  refine ⟨shouldProcessBatch_matches_spec.1 60 stNine "C5"
      { messages := List.replicate 9 msgA, lastBatchTime := 0, pendingUpdate := false }
      (by decide),
    shouldProcessBatch_matches_spec.2.1 60 emptyState "C5" (by decide)⟩

/-! ## Claim C2 — buffer contents after a completed cycle -/

/-- C2 counterexample: in `src/index.js` a completed cycle removes nothing
from the buffer.  Channel `"C2"` starts a cycle with a snapshot of K = 1
message (`msgA`); M = 1 message (`msgB`) arrives while the cycle is in
flight; after the cycle completes the buffer holds both messages
(`[msgA, msgB]`), not exactly the M new ones (`[msgB]`) as the claim
states. -/
theorem processBatch_retains_consumed_messages :
    (processBatchFinish (addMessageToBatch (processBatchStart stC2 "C2").1 "C2" msgB 50)
        "C2" 60 (Except.ok ())).channelData "C2" =
      some { messages := [msgA, msgB], lastBatchTime := 60, pendingUpdate := false } ∧
    [msgA, msgB] ≠ [msgB] := by
  refine ⟨by decide, by decide⟩

/-- C2 (amended): in `src/index.js`, `processBatch` leaves the message
buffer untouched on completion (only `lastBatchTime` and the busy flag
change); in `src/app.js`, `processMessages` clears the whole buffer,
dropping messages that arrived during the cycle; the claimed snapshot
semantics holds in `src/paper-enterprise.js`, whose `processMessages`
removes exactly the consumed snapshot, so the buffer afterwards contains
exactly the messages appended while the cycle was in flight. -/
theorem buffer_semantics_per_variant :
    (∀ (st : IndexState) (c : ChannelId) (now : Nat) (d : ChannelEntry),
      st.channelData c = some d →
      (processBatchFinish st c now (Except.ok ())).channelData c =
        some { d with lastBatchTime := now, pendingUpdate := false }) ∧
    (∀ (d : AppChannelEntry), (appProcessMessagesFinish d).messages = []) ∧
    (∀ (d : EntChannelEntry) (newMsgs : List Message),
      d.processing = false → 3 ≤ d.messages.length →
      (entProcessFinish
          { (entProcessStart d).1 with messages := (entProcessStart d).1.messages ++ newMsgs }
          d.messages EntBodyOutcome.completed).messages = newMsgs ∧
      (entProcessFinish
          { (entProcessStart d).1 with messages := (entProcessStart d).1.messages ++ newMsgs }
          d.messages EntBodyOutcome.completed).processing = false) := by
  refine ⟨?_, fun _ => rfl, ?_⟩
  · intro st c now d h
    simp only [processBatchFinish, clearBusy, h, setChannel_channelData, setChannel]
    simp
  · intro d newMsgs hp hl
    have hstart : entProcessStart d = ({ d with processing := true }, some d.messages) := by
      unfold entProcessStart
      rw [if_neg (by simp [hp]), if_neg (Nat.not_lt.mpr hl)]
    rw [hstart]
    unfold entProcessFinish
    by_cases hn : newMsgs = []
    · subst hn
      simp
    · have hne : (d.messages ++ newMsgs).length ≠ d.messages.length := by
        rw [List.length_append]
        intro hh
        exact hn (List.length_eq_zero.mp (by omega))
      simp [hne, List.drop_left, hn]

/-- C2 witness: the amended semantics evaluated on concrete channels. -/
theorem buffer_semantics_per_variant_witness :
    (processBatchFinish stC2 "C2" 60 (Except.ok ())).channelData "C2" =
      some { messages := [msgA], lastBatchTime := 60, pendingUpdate := false } ∧
    (appProcessMessagesFinish
      { messages := [msgA], canvasId := none, lastUpdate := 0 }).messages = [] ∧
    (entProcessFinish
        { (entProcessStart entEx).1 with
          messages := (entProcessStart entEx).1.messages ++ [msgB] }
        entEx.messages EntBodyOutcome.completed).messages = [msgB] := by
  refine ⟨buffer_semantics_per_variant.1 stC2 "C2" 60
      { messages := [msgA], lastBatchTime := 0, pendingUpdate := false } (by decide),
    buffer_semantics_per_variant.2.1 _,
    (buffer_semantics_per_variant.2.2 entEx [msgB] (by decide) (by decide)).1⟩

/-! ## Claim C1 — mutual exclusion of triggers -/

/-- C1 counterexample: channel `"C1"` has a cycle in flight (busy flag
set), yet an `@Paper summary` mention performs a platform call — the
`conversations.history` fetch (and the subsequent canvas update) —
because the `app_mention` handler of `src/index.js` never consults
`pendingUpdate`.  This refutes "manual mention-command triggers ... still
respect the busy flag" / "zero additional platform calls until the first
completes". -/
theorem mention_during_busy_cycle_fetches_history :
    entryBusy stBusy "C1" = true ∧
    (appMentionHandler stBusy "C1" "summary please" mentionEnvEx).historyFetched = true := by
  refine ⟨by decide, by decide⟩

/-- C1 (amended): automatic batch triggers do respect the busy flag — with
a cycle in flight, `shouldProcessBatch` is false after the append, so the
message handler schedules nothing; but the manual mention trigger, which
bypasses the threshold check, does not consult the busy flag: on a
bootstrapped channel a "summary" command always performs the history
platform call, busy or not. -/
theorem auto_trigger_respects_busy_mention_does_not :
    (∀ (st : IndexState) (c : ChannelId) (m : Message) (now : Nat),
      entryBusy st c = true → messageTriggerFires st c m now = false) ∧
    (∀ (st : IndexState) (c : ChannelId) (text : String) (env : MentionEnv),
      st.bootstrappedChannels c = true → strIncludes text "summary" = true →
      (appMentionHandler st c text env).historyFetched = true) := by
  constructor
  · intro st c m now h
    unfold messageTriggerFires
    have hb := entryBusy_addMessageToBatch st c m now h
    unfold entryBusy at hb
    cases hd : (addMessageToBatch st c m now).channelData c with
    | none => rw [hd] at hb; simp at hb
    | some d =>
      simp only [hd] at hb
      simp [shouldProcessBatch, hd, hb]
  · intro st c text env hb ht
    cases henv : env.historyRes with
    | error e => simp [appMentionHandler, ht, hb, henv]
    | ok msgs =>
      simp [appMentionHandler, ht, hb, henv]
      split_ifs <;> rfl

/-- C1 witness: the amended statement evaluated at the concrete busy
channel. -/
theorem auto_trigger_respects_busy_mention_does_not_witness :
    messageTriggerFires stBusy "C1" msgB 60 = false ∧
    (appMentionHandler stBusy "C1" "summary now" mentionEnvEx).historyFetched = true := by
  refine ⟨auto_trigger_respects_busy_mention_does_not.1 stBusy "C1" msgB 60 (by decide),
    auto_trigger_respects_busy_mention_does_not.2 stBusy "C1" "summary now" mentionEnvEx
      (by decide) (by decide)⟩

/-! ## Claim C4 — check-before-create, at most one document -/

/-- A cycle on a channel with a cached canvas id edits in place: no
create call, no state change. -/
theorem syncCycle_cached (st : IndexState) (p : Option CanvasId) (c : ChannelId)
    (sd : SummaryData) (o : ApiOutcome CanvasId) (i : CanvasId)
    (h : st.canvasData c = some i) : syncCycle st p c sd o = (st, p, false) := by
  simp [syncCycle, updateCanvasWithClient, editExistingWithClient, h]

/-- A cycle with an empty cache but a platform-attached document caches
the platform's id and edits: no create call. -/
theorem syncCycle_platform_doc (st : IndexState) (p0 : CanvasId) (c : ChannelId)
    (sd : SummaryData) (o : ApiOutcome CanvasId) (h : st.canvasData c = none) :
    syncCycle st (some p0) c sd o = (setCanvas st c (some p0), some p0, false) := by
  simp [syncCycle, updateCanvasWithClient, editExistingWithClient, h]

/-- A cycle with an empty cache and no platform document issues a create
call; on success the fresh id is cached and attached platform-side. -/
theorem syncCycle_creates (st : IndexState) (c : ChannelId) (sd : SummaryData)
    (i : CanvasId) (h : st.canvasData c = none) :
    syncCycle st none c sd (ApiOutcome.ok i) = (setCanvas st c (some i), some i, true) := by
  simp [syncCycle, updateCanvasWithClient, h]

/-- Once the cache holds a document id, a whole run of cycles issues no
create call at all. -/
theorem runSync_cached (c : ChannelId) (sd : SummaryData)
    (outs : List (ApiOutcome CanvasId)) :
    ∀ (st : IndexState) (p : Option CanvasId) (i : CanvasId), st.canvasData c = some i →
      (runSync st p c sd outs).2.2 = 0 := by
  induction outs with
  | nil => intro st p i _; rfl
  | cons o rest ih =>
    intro st p i h
    simp only [runSync, syncCycle_cached st p c sd o i h]
    simpa using ih st p i h

/-- C4 counterexample: starting from an empty cache and no platform
document, two consecutive triggered cycles with no document-stale error
(the edit call always succeeds inside `runSync`) in which the create call
is rejected each time (`response.ok` false, `src/index.js` lines 823-826)
issue two create-document calls — more than the "at most one" the claim
allows for such a sequence. -/
theorem two_create_calls_without_stale_error :
    ¬ ((runSync emptyState none "C4" sdEx
        [ApiOutcome.okFalse, ApiOutcome.okFalse]).2.2 ≤ 1) := by decide

/-- C4 (amended): the synchronizer checks before creating — a cycle
issues a create call only when both the local cache and the platform
lookup are empty — and across any sequence of triggered cycles with no
document-stale error in which every issued create call succeeds, at most
one create-document call occurs (a failed create leaves the cache empty,
so the next cycle retries the create). -/
theorem at_most_one_successful_create :
    (∀ (st : IndexState) (p : Option CanvasId) (c : ChannelId) (sd : SummaryData)
        (o : ApiOutcome CanvasId),
      (syncCycle st p c sd o).2.2 = true → st.canvasData c = none ∧ p = none) ∧
    (∀ (st : IndexState) (p : Option CanvasId) (c : ChannelId) (sd : SummaryData)
        (outs : List (ApiOutcome CanvasId)),
      (∀ o ∈ outs, ∃ i, o = ApiOutcome.ok i) →
      (runSync st p c sd outs).2.2 ≤ 1) := by
  constructor
  · intro st p c sd o h
    cases hc : st.canvasData c with
    | some j =>
      rw [syncCycle_cached st p c sd o j hc] at h
      simp at h
    | none =>
      cases p with
      | some p0 =>
        rw [syncCycle_platform_doc st p0 c sd o hc] at h
        simp at h
      | none => exact ⟨rfl, rfl⟩
  · intro st p c sd outs hok
    cases outs with
    | nil => simp [runSync]
    | cons o rest =>
      obtain ⟨i, rfl⟩ := hok o (List.mem_cons_self o rest)
      have hrest : ∀ o' ∈ rest, ∃ j, o' = ApiOutcome.ok j :=
        fun o' ho' => hok o' (List.mem_cons_of_mem _ ho')
      cases hc : st.canvasData c with
      | some j =>
        simp only [runSync, syncCycle_cached st p c sd _ j hc]
        simp [runSync_cached c sd rest st p j hc]
      | none =>
        cases p with
        | some p0 =>
          simp only [runSync, syncCycle_platform_doc st p0 c sd _ hc]
          have h2 := runSync_cached c sd rest (setCanvas st c (some p0)) (some p0) p0
            (setCanvas_canvasData st c (some p0))
          simp [h2]
        | none =>
          simp only [runSync, syncCycle_creates st c sd i hc]
          have h2 := runSync_cached c sd rest (setCanvas st c (some i)) (some i) i
            (setCanvas_canvasData st c (some i))
          simp [h2]

/-- C4 witness: a create-issuing cycle from empty state, and a
two-cycle run with successful creates performing one create call. -/
theorem at_most_one_successful_create_witness :
    (emptyState.canvasData "C4" = none ∧ (none : Option CanvasId) = none) ∧
    (runSync emptyState none "C4" sdEx
      [ApiOutcome.ok "D1", ApiOutcome.ok "D1"]).2.2 ≤ 1 := by
  refine ⟨at_most_one_successful_create.1 emptyState none "C4" sdEx
      (ApiOutcome.ok "D1") (by decide),
    at_most_one_successful_create.2 emptyState none "C4" sdEx
      [ApiOutcome.ok "D1", ApiOutcome.ok "D1"] ?_⟩
  intro o ho
  simp only [List.mem_cons, List.not_mem_nil, or_false] at ho
  rcases ho with rfl | rfl <;> exact ⟨"D1", rfl⟩

/-! ## Claim C6 — handling of a stale cached document id -/

/-- C6 counterexample: in the single-workspace `updateCanvas` path, a
`canvas_not_found` failure of the replace-content call does not clear the
cached document id — channel `"C6"` keeps the stale id `"D1"` (the catch
block at `src/index.js` lines 1001-1074 has no `canvas_not_found` case
and posts the fallback message instead) — and the next triggered cycle
takes the edit path again, issuing no create call. -/
theorem stale_canvas_not_cleared_single_path :
    (updateCanvasSingle stD1 "C6" sdEx "T" staleEnvS).st.canvasData "C6" = some "D1" ∧
    (updateCanvasSingle (updateCanvasSingle stD1 "C6" sdEx "T" staleEnvS).st
        "C6" sdEx "T" staleEnvS).createCalled = false := by
  refine ⟨by decide, by decide⟩

/-- C6 (amended): the claimed behaviour holds on the multi-workspace
path: when `updateCanvasWithClient` sees `canvas_not_found` on the edit
call, it clears only the cached document id — message buffer and
bootstrapped flag are untouched — and the next triggered cycle issues a
create call and caches the newly returned id.  The single-workspace
`updateCanvas` path instead retains the stale id and posts the fallback
message. -/
theorem stale_canvas_cleared_only_with_client :
    ∀ (st : IndexState) (c : ChannelId) (sd sd2 : SummaryData) (i newId : CanvasId)
      (env env2 : CanvasCallEnv),
      st.canvasData c = some i → env.editRes = ApiOutcome.threw ErrKind.canvasNotFound →
      env2.lookupRes = Except.ok none → env2.createRes = ApiOutcome.ok newId →
      (updateCanvasWithClient st c sd env).st.canvasData c = none ∧
      (updateCanvasWithClient st c sd env).st.channelData = st.channelData ∧
      (updateCanvasWithClient st c sd env).st.bootstrappedChannels =
        st.bootstrappedChannels ∧
      (updateCanvasWithClient (updateCanvasWithClient st c sd env).st c sd2 env2).st.canvasData
        c = some newId ∧
      (updateCanvasWithClient (updateCanvasWithClient st c sd env).st c sd2
        env2).createCalled = true := by
  intro st c sd sd2 i newId env env2 hc he hl hcr
  have h1 : updateCanvasWithClient st c sd env =
      { st := setCanvas st c none, createCalled := false, posted := [] } := by
    simp [updateCanvasWithClient, editExistingWithClient, applyCanvasCatch, hc, he]
  rw [h1]
  have h2 : (setCanvas st c none).canvasData c = none := setCanvas_canvasData st c none
  refine ⟨h2, rfl, rfl, ?_, ?_⟩ <;>
    simp [updateCanvasWithClient, h2, hl, hcr, setCanvas_canvasData]

/-- C6 witness: the amended statement evaluated at the concrete stale
channel `"C6"` with cached id `"D1"` and a fresh id `"D2"`. -/
theorem stale_canvas_cleared_only_with_client_witness :
    (updateCanvasWithClient stD1 "C6" sdEx staleEnvW).st.canvasData "C6" = none ∧
    (updateCanvasWithClient (updateCanvasWithClient stD1 "C6" sdEx staleEnvW).st "C6" sdEx
      freshEnvW).st.canvasData "C6" = some "D2" := by
  have h := stale_canvas_cleared_only_with_client stD1 "C6" sdEx sdEx "D1" "D2"
    staleEnvW freshEnvW (by decide) rfl rfl rfl
  exact ⟨h.1, h.2.2.2.1⟩

/-! ## Claim C8 — fallback to a plain chat message -/

/-- C8 counterexample: the multi-workspace synchronizer path (OAuth mode
resolving to `updateCanvasWithClient`) hits a permission-style error on
the create call and posts nothing at all — no plain chat message with the
summary body — refuting the claim for that synchronizer path (its catch,
`src/index.js` lines 850-863, only logs). -/
theorem permission_failure_posts_nothing_with_client :
    (updateCanvas stC8 "C8" sdEx "T" true oresOk permEnvW okSingleEnv).posted = [] := by
  decide

/-- C8 (amended): the plain-chat-message fallback exists only on the
single-workspace `updateCanvas` path: there, any structured-document
failure other than channel-inaccessible (edit failure on a cached id, or
create failure) posts the summary body as a chat message when the
fallback post succeeds.  The multi-workspace `updateCanvasWithClient`
path posts no chat message on any outcome.  Neither path propagates an
exception (both are total, their catches absorbing every modelled
error). -/
theorem fallback_posts_summary_single_workspace_only :
    (∀ (st : IndexState) (c : ChannelId) (sd : SummaryData) (title : String)
        (env : SingleEnv) (i : CanvasId) (e : ErrKind),
      st.canvasData c = some i → env.editRes = Except.error e →
      e ≠ ErrKind.channelNotFound → env.fallbackRes = Except.ok () →
      (updateCanvasSingle st c sd title env).posted = [sd.summary]) ∧
    (∀ (st : IndexState) (c : ChannelId) (sd : SummaryData) (title : String)
        (env : SingleEnv) (e : ErrKind),
      st.canvasData c = none → env.lookupRes = Except.ok none →
      env.createRes = Except.error e →
      e ≠ ErrKind.channelNotFound → env.fallbackRes = Except.ok () →
      (updateCanvasSingle st c sd title env).posted = [sd.summary]) ∧
    (∀ (st : IndexState) (c : ChannelId) (sd : SummaryData) (env : CanvasCallEnv),
      (updateCanvasWithClient st c sd env).posted = []) := by
  refine ⟨?_, ?_, ?_⟩
  · intro st c sd title env i e hc he hne hf
    cases e with
    | channelNotFound => exact absurd rfl hne
    | canvasNotFound =>
        simp [updateCanvasSingle, editExistingSingle, updateCanvasCatchSingle, hc, he, hf]
    | missingScope =>
        simp [updateCanvasSingle, editExistingSingle, updateCanvasCatchSingle, hc, he, hf]
    | other =>
        simp [updateCanvasSingle, editExistingSingle, updateCanvasCatchSingle, hc, he, hf]
  · intro st c sd title env e hc hl hcr hne hf
    cases e with
    | channelNotFound => exact absurd rfl hne
    | canvasNotFound =>
        simp [updateCanvasSingle, getExistingCanvasId, updateCanvasCatchSingle,
          hc, hl, hcr, hf]
    | missingScope =>
        simp [updateCanvasSingle, getExistingCanvasId, updateCanvasCatchSingle,
          hc, hl, hcr, hf]
    | other =>
        simp [updateCanvasSingle, getExistingCanvasId, updateCanvasCatchSingle,
          hc, hl, hcr, hf]
  · intro st c sd env
    obtain ⟨lr, cr, er⟩ := env
    cases hc : st.canvasData c with
    | some i =>
        cases er <;> simp [updateCanvasWithClient, editExistingWithClient, hc]
    | none =>
      rcases lr with e | f
      · cases e <;>
          cases cr <;>
            simp [updateCanvasWithClient, editExistingWithClient, applyCanvasCatch, hc]
      · rcases f with _ | i2
        · cases cr <;>
            simp [updateCanvasWithClient, editExistingWithClient, applyCanvasCatch, hc]
        · cases er <;>
            simp [updateCanvasWithClient, editExistingWithClient, applyCanvasCatch, hc]

/-- C8 witness: the amended statement evaluated at concrete channels. -/
theorem fallback_posts_summary_single_workspace_only_witness :
    (updateCanvasSingle stD1 "C6" sdEx "T" staleEnvS).posted = [sdEx.summary] ∧
    (updateCanvasWithClient stC8 "C8" sdEx permEnvW).posted = [] := by
  refine ⟨fallback_posts_summary_single_workspace_only.1 stD1 "C6" sdEx "T" staleEnvS
      "D1" ErrKind.canvasNotFound (by decide) rfl (by decide) rfl,
    fallback_posts_summary_single_workspace_only.2.2 stC8 "C8" sdEx permEnvW⟩

/-! ## Claim C7 — bootstrap runs at most once, flag set on every exit -/

theorem setBootstrapped_self (st : IndexState) (c : ChannelId) (b : Bool) :
    (setBootstrapped st c b).bootstrappedChannels c = b := by
  simp [setBootstrapped]

theorem initChannelData_bootstrapped (st : IndexState) (c : ChannelId) (now : Nat) :
    (initChannelData st c now).bootstrappedChannels = st.bootstrappedChannels := by
  unfold initChannelData
  split <;> rfl

/-- A bootstrap run on a channel not yet flagged always performs the
history fetch (every branch past the gate reports `historyFetched`). -/
theorem bootstrap_fetches_when_not_flagged (st : IndexState) (c : ChannelId) (now : Nat)
    (env : BootstrapEnv) (h : st.bootstrappedChannels c = false) :
    (bootstrapChannelCanvasWithClient st c now env).historyFetched = true := by
  unfold bootstrapChannelCanvasWithClient
  simp only [h, Bool.false_eq_true, if_false]
  cases env.historyRes with
  | error e => rfl
  | ok msgs =>
      dsimp only
      split_ifs <;> rfl

/-- C7: the bootstrap importer is gated on the `bootstrappedChannels`
flag — a second invocation for an already-flagged channel is a no-op with
no history fetch — and both bootstrap functions set the flag on every
exit path (inaccessible channel, missing scope, any other history error,
sufficient history, insufficient history, empty history, and, for
`bootstrapChannelCanvas`, the OAuth-resolution failure paths). -/
theorem bootstrap_runs_once_flag_always_set :
    (∀ (st : IndexState) (c : ChannelId) (now : Nat) (env : BootstrapEnv),
      (bootstrapChannelCanvasWithClient st c now env).st.bootstrappedChannels c = true) ∧
    (∀ (st : IndexState) (c : ChannelId) (now : Nat) (env : BootstrapEnv2),
      (bootstrapChannelCanvas st c now env).st.bootstrappedChannels c = true) ∧
    (∀ (st : IndexState) (c : ChannelId) (now : Nat) (env : BootstrapEnv),
      st.bootstrappedChannels c = true →
      (bootstrapChannelCanvasWithClient st c now env).st = st ∧
      (bootstrapChannelCanvasWithClient st c now env).historyFetched = false) ∧
    (∀ (st : IndexState) (c : ChannelId) (now : Nat) (env : BootstrapEnv2),
      st.bootstrappedChannels c = true →
      (bootstrapChannelCanvas st c now env).st = st ∧
      (bootstrapChannelCanvas st c now env).historyFetched = false) := by
  refine ⟨?_, ?_, ?_, ?_⟩
  · intro st c now env
    unfold bootstrapChannelCanvasWithClient
    cases hb : st.bootstrappedChannels c with
    | true => simp [hb]
    | false =>
      simp only [hb, Bool.false_eq_true, if_false]
      cases env.historyRes with
      | error e => simp [setBootstrapped_self]
      | ok msgs =>
          dsimp only
          split_ifs <;>
            simp [initChannelData_bootstrapped, setBootstrapped_self]
  · intro st c now env
    unfold bootstrapChannelCanvas
    cases hb : st.bootstrappedChannels c with
    | true => simp [hb]
    | false =>
      simp only [hb, Bool.false_eq_true, if_false]
      split_ifs with h1 h2
      · simp [setBootstrapped_self]
      · simp [setBootstrapped_self]
      · cases env.historyRes with
        | error e => simp [setBootstrapped_self]
        | ok msgs =>
            dsimp only
            split_ifs <;>
              simp [initChannelData_bootstrapped, setBootstrapped_self]
  · intro st c now env h
    unfold bootstrapChannelCanvasWithClient
    simp [h]
  · intro st c now env h
    unfold bootstrapChannelCanvas
    simp [h]

/-- C7 witness: both bootstrap functions on a fresh channel set the flag;
on an already-flagged channel both are no-ops. -/
theorem bootstrap_runs_once_flag_always_set_witness :
    (bootstrapChannelCanvasWithClient emptyState "C7" 0 bootEnvEx).st.bootstrappedChannels
      "C7" = true ∧
    (bootstrapChannelCanvas emptyState "C7" 0 bootEnv2Ex).st.bootstrappedChannels
      "C7" = true ∧
    (bootstrapChannelCanvasWithClient stBusy "C1" 0 bootEnvEx).st = stBusy ∧
    (bootstrapChannelCanvas stBusy "C1" 0 bootEnv2Ex).historyFetched = false := by
  refine ⟨bootstrap_runs_once_flag_always_set.1 emptyState "C7" 0 bootEnvEx,
    bootstrap_runs_once_flag_always_set.2.1 emptyState "C7" 0 bootEnv2Ex,
    (bootstrap_runs_once_flag_always_set.2.2.1 stBusy "C1" 0 bootEnvEx (by decide)).1,
    (bootstrap_runs_once_flag_always_set.2.2.2 stBusy "C1" 0 bootEnv2Ex (by decide)).2⟩

/-! ## Claim C10 — the periodic idle cleanup -/

/-- C10: the cleanup sweep deletes, for every channel whose entry has an
empty buffer and a last-flush timestamp older than one hour, the buffer
entry, the cached canvas id and the bootstrapped flag — so a later
bootstrap run on the evicted channel performs the history fetch again —
while channels with a non-empty buffer or a recent flush keep all three
entries unchanged. -/
theorem cleanup_evicts_idle_channels :
    ∀ (st : IndexState) (now : Nat) (c : ChannelId) (d : ChannelEntry),
      st.channelData c = some d →
      ((d.lastBatchTime < now - 60 * 60 * 1000 → d.messages.length = 0 →
        (cleanupIdle st now).channelData c = none ∧
        (cleanupIdle st now).canvasData c = none ∧
        (cleanupIdle st now).bootstrappedChannels c = false ∧
        (∀ (now2 : Nat) (env : BootstrapEnv),
          (bootstrapChannelCanvasWithClient (cleanupIdle st now) c now2
            env).historyFetched = true)) ∧
       (¬ (d.lastBatchTime < now - 60 * 60 * 1000 ∧ d.messages.length = 0) →
        (cleanupIdle st now).channelData c = st.channelData c ∧
        (cleanupIdle st now).canvasData c = st.canvasData c ∧
        (cleanupIdle st now).bootstrappedChannels c = st.bootstrappedChannels c)) := by
  intro st now c d hd
  constructor
  · intro hlt hlen
    have hnil : d.messages = [] := List.length_eq_zero.mp hlen
    have hflag : (cleanupIdle st now).bootstrappedChannels c = false := by
      simp [cleanupIdle, hd, hlt, hnil]
    refine ⟨by simp [cleanupIdle, hd, hlt, hnil], by simp [cleanupIdle, hd, hlt, hnil],
      hflag, fun now2 env => bootstrap_fetches_when_not_flagged _ c now2 env hflag⟩
  · intro hnot
    rcases not_and_or.mp hnot with h | h
    · refine ⟨?_, ?_, ?_⟩ <;> simp [cleanupIdle, hd, h]
    · have hnil : ¬ d.messages = [] := fun hh => h (by simp [hh])
      refine ⟨?_, ?_, ?_⟩ <;> simp [cleanupIdle, hd, hnil]

/-- C10 witness: at `now` two hours in, the idle channel `"C10"` is
evicted from all three stores and would re-bootstrap, while the active
channel `"C2"` is untouched. -/
theorem cleanup_evicts_idle_channels_witness :
    ((cleanupIdle stIdle 7200000).channelData "C10" = none ∧
     (cleanupIdle stIdle 7200000).canvasData "C10" = none ∧
     (cleanupIdle stIdle 7200000).bootstrappedChannels "C10" = false ∧
     (bootstrapChannelCanvasWithClient (cleanupIdle stIdle 7200000) "C10" 1
        bootEnvEx).historyFetched = true) ∧
    (cleanupIdle stC2 7200000).channelData "C2" = stC2.channelData "C2" := by
  have h1 := (cleanup_evicts_idle_channels stIdle 7200000 "C10"
    { messages := [], lastBatchTime := 0, pendingUpdate := false } (by decide)).1
    (by decide) (by decide)
  have h2 := (cleanup_evicts_idle_channels stC2 7200000 "C2"
    { messages := [msgA], lastBatchTime := 0, pendingUpdate := false } (by decide)).2
    (by decide)
  exact ⟨⟨h1.1, h1.2.1, h1.2.2.1, h1.2.2.2 1 bootEnvEx⟩, h2.1⟩

end Paper
